import Mathlib

/-!
Shallow embedding of the GreatFET dual-role USB controller driver core
(libgreat lpc43xx usb.c, usb_queue_host.c, and the standard-request engine),
with theorems checking the specification's claims about it.

Machine integers are modelled as `Nat` with explicit 32-bit masking where the
source relies on register width.  Registers that are write-one-to-clear in the
hardware (usbsts, endptsetupstat, endptcomplete, endptnak) are modelled by the
net effect of the write on the stored value.
-/

/-- 2^32 - 1, the all-ones value of a 32-bit register. -/
def mask32 : Nat := 4294967295

/-- One's complement within a 32-bit register, as `~x` acts on a `uint32_t`. -/
def compl32 (x : Nat) : Nat := mask32 ^^^ x

/- ----------------------------------------------------------------- -/
/- Wire-level constants (usb_type.h and the libopencm3 register macros) -/
/- ----------------------------------------------------------------- -/

def USB_DESCRIPTOR_TYPE_DEVICE : Nat := 1
def USB_DESCRIPTOR_TYPE_CONFIGURATION : Nat := 2
def USB_DESCRIPTOR_TYPE_STRING : Nat := 3
def USB_DESCRIPTOR_TYPE_INTERFACE : Nat := 4
def USB_DESCRIPTOR_TYPE_ENDPOINT : Nat := 5
def USB_DESCRIPTOR_TYPE_DEVICE_QUALIFIER : Nat := 6
def USB_DESCRIPTOR_TYPE_OTHER_SPEED_CONFIGURATION : Nat := 7

/-- `USB0_ENDPTCTRL_RXE`: receive-endpoint enable, bit 7. -/
def USB0_ENDPTCTRL_RXE : Nat := 1 <<< 7
/-- `USB0_ENDPTCTRL_TXE`: transmit-endpoint enable, bit 23. -/
def USB0_ENDPTCTRL_TXE : Nat := 1 <<< 23
/-- `USB0_DEVICEADDR_USBADR(x)` shifts the address into bits 31:25. -/
def USB0_DEVICEADDR_USBADR (x : Nat) : Nat := x <<< 25
/-- `USB0_DEVICEADDR_USBADRA`: the deferred-address latch bit, bit 24. -/
def USB0_DEVICEADDR_USBADRA : Nat := 1 <<< 24
/-- `USB0_PORTSC1_D_PSPD(x)`: port-speed field, bits 27:26. -/
def USB0_PORTSC1_D_PSPD (x : Nat) : Nat := x <<< 26
def USB0_PORTSC1_D_PSPD_MASK : Nat := 3 <<< 26
/-- `USB0_USBSTS_D_UI`: the USB interrupt bit of usbsts. -/
def USB0_USBSTS_D_UI : Nat := 1
/-- `USB0_USBSTS_D_URI`: the USB-reset-received bit of usbsts. -/
def USB0_USBSTS_D_URI : Nat := 1 <<< 6
/-- `EFAULT`, the errno returned by `usb_set_configuration` on a miss. -/
def EFAULT : Nat := 14

/-- `usb_speed_t`. -/
inductive usb_speed where
  | low | full | high | super
deriving DecidableEq

/-- `usb_setup_t`: the decoded 8-byte setup packet, one field per byte as
`usb_copy_setup` fills them.  The 16-bit `length`, `value` and `index`
accessors read the little-endian byte pairs, as the C union does. -/
structure usb_setup where
  request_type : Nat
  request : Nat
  value_l : Nat
  value_h : Nat
  index_l : Nat
  index_h : Nat
  length_l : Nat
  length_h : Nat
deriving DecidableEq

/-- The union's 16-bit `length` view (wLength). -/
def usb_setup.length (s : usb_setup) : Nat := s.length_l + 256 * s.length_h

/-- A descriptor as the driver reads it: the shared `length`/`type` prefix of
`usb_descriptor_t`, together with the fields the code reads after casting to
`usb_configuration_descriptor_t` (`total_length`, `value`).  The latter are
meaningful only when `type` is CONFIGURATION, exactly as in the source. -/
structure usb_descriptor where
  length : Nat
  type : Nat
  total_length : Nat
  value : Nat
deriving DecidableEq

/-- Events the driver emits toward hardware, callbacks, and the transfer
queue.  Callback invocations and scheduled transfers are recorded as trace
events rather than executed. -/
inductive usb_event where
  /-- `usb_transfer_schedule_block(endpoint->in, descriptor, len, ...)`. -/
  | schedule_block_in_desc (d : usb_descriptor) (len : Nat)
  /-- `usb_transfer_schedule_block(endpoint->in, buffer, n, ...)` where the
  buffer holds the given bytes at schedule time. -/
  | schedule_block_in_bytes (data : List Nat)
  /-- `usb_transfer_schedule_ack(endpoint->in)`. -/
  | schedule_ack_in
  /-- `usb_transfer_schedule_ack(endpoint->out)`. -/
  | schedule_ack_out
  /-- `device->configuration_changed_callback(device)`. -/
  | configuration_changed
  /-- `usb_copy_setup(&endpoint->setup, qh->setup)` for OUT endpoint `i`. -/
  | copied_setup_out (i : Nat)
  /-- `usb_copy_setup(&endpoint->in->setup, qh->setup)` for endpoint `i`. -/
  | copied_setup_in (i : Nat)
  /-- `usb_clear_endpoint_setup_status` for endpoint `i` (write + spin). -/
  | cleared_setup_status (i : Nat)
  /-- `usb_endpoint_flush(endpoint->in)` for endpoint `i`. -/
  | flushed_in (i : Nat)
  /-- `usb_endpoint_flush(endpoint->out)` for endpoint `i`. -/
  | flushed_out (i : Nat)
  /-- `endpoint->setup_complete(endpoint)` for endpoint `i`. -/
  | setup_complete (i : Nat)
  /-- `endpoint->transfer_complete(endpoint)` for OUT endpoint `i`. -/
  | transfer_complete_out (i : Nat)
  /-- `endpoint->transfer_complete(endpoint)` for IN endpoint `i`. -/
  | transfer_complete_in (i : Nat)
deriving DecidableEq

/-- `usb_request_status_t`. -/
inductive usb_request_status where
  | ok | stall
deriving DecidableEq

/-- The device-mode view of `struct usb_peripheral`, its register block, the
per-endpoint state the device-mode ISR touches, and the standard-request
engine's static cell.  Registers are 32-bit values; per-endpoint state is a
function of the endpoint number. -/
structure usb_peripheral where
  usbsts : Nat
  usbintr : Nat
  deviceaddr : Nat
  portsc1 : Nat
  endptsetupstat : Nat
  endptprime : Nat
  endptflush : Nat
  endptstat : Nat
  endptcomplete : Nat
  endptnak : Nat
  endptnaken : Nat
  endptctrl : Nat → Nat
  /-- `device_descriptor->configuration_count`. -/
  configuration_count : Nat
  device_descriptor : Option usb_descriptor
  device_qualifier_descriptor : Option usb_descriptor
  full_speed_configurations : Option (List usb_descriptor)
  high_speed_configurations : Option (List usb_descriptor)
  active_configuration : Option usb_descriptor
  /-- whether `configuration_changed_callback` is non-NULL. -/
  has_configuration_changed_callback : Bool
  /-- `string_descriptors` of the libgreat engine: (index, descriptor) entries
  up to the NULL-descriptor sentinel. -/
  string_descriptor_entries : List (Nat × usb_descriptor)
  /-- `language_descriptors` of the generic-EHCI engine. -/
  language_descriptors : Option usb_descriptor
  /-- the generic-EHCI engine's `string_descriptors` array entries at indices
  1, 2, ... up to the NULL sentinel. -/
  string_descriptors_from_one : List usb_descriptor
  /-- the 8 setup bytes in the dQH of OUT endpoint `i` (byte index → value). -/
  dqh_setup : Nat → Nat → Nat
  /-- the cached `setup` of the OUT endpoint numbered `i`. -/
  out_setup : Nat → usb_setup
  /-- the cached `setup` of the IN endpoint numbered `i`. -/
  in_setup : Nat → usb_setup
  /-- whether endpoint `i` and its `setup_complete` callback are non-NULL. -/
  has_setup_complete : Nat → Bool
  /-- whether OUT endpoint `i` and its `transfer_complete` are non-NULL. -/
  has_transfer_complete_out : Nat → Bool
  /-- whether IN endpoint `i` and its `transfer_complete` are non-NULL. -/
  has_transfer_complete_in : Nat → Bool
  /-- the `static uint8_t configuration_index` cell inside
  `usb_standard_request_get_configuration`. -/
  get_configuration_static : Nat

/- ----------------------------------------------------------------- -/
/- Descriptor resolver (usb.c, generic-EHCI section)                  -/
/- ----------------------------------------------------------------- -/

/-- `usb_current_device_speed`: decode PORTSC1's PSPD field; unexpected values
fall back to full speed, as the source's default branch does. -/
def usb_current_device_speed (d : usb_peripheral) : usb_speed :=
  let pspd := d.portsc1 &&& USB0_PORTSC1_D_PSPD_MASK
  if pspd = USB0_PORTSC1_D_PSPD 0 then .full
  else if pspd = USB0_PORTSC1_D_PSPD 2 then .high
  else .full

/-- `usb_current_configuration_pool`. -/
def usb_current_configuration_pool (d : usb_peripheral) :
    Option (List usb_descriptor) :=
  if usb_current_device_speed d = .high then d.high_speed_configurations
  else d.full_speed_configurations

/-- `usb_other_configuration_pool`. -/
def usb_other_configuration_pool (d : usb_peripheral) :
    Option (List usb_descriptor) :=
  if usb_current_device_speed d = .high then d.full_speed_configurations
  else d.high_speed_configurations

/-- `_usb_find_configuration_descriptor`: value 0 and a missing pool return
NULL; otherwise scan the first `configuration_count` entries for a matching
`value` (the C loop indexes `configurations[i]` for `i < configuration_count`). -/
def find_configuration_descriptor_core (d : usb_peripheral)
    (configuration_value : Nat) (is_other_speed : Bool) :
    Option usb_descriptor :=
  let pool := if is_other_speed then usb_other_configuration_pool d
              else usb_current_configuration_pool d
  if configuration_value = 0 then none
  else
    match pool with
    | none => none
    | some configurations =>
        (configurations.take d.configuration_count).find?
          (fun config => config.value = configuration_value)

/-- `usb_find_configuration_descriptor`. -/
def usb_find_configuration_descriptor (d : usb_peripheral) (v : Nat) :
    Option usb_descriptor :=
  find_configuration_descriptor_core d v false

/-- `usb_find_other_speed_configuration_descriptor`. -/
def usb_find_other_speed_configuration_descriptor (d : usb_peripheral)
    (v : Nat) : Option usb_descriptor :=
  find_configuration_descriptor_core d v true

/-- `usb_set_configuration`: look up the descriptor; fail with EFAULT when a
nonzero value has no descriptor; otherwise install it and fire the
configuration-changed callback.  Returns (rc, new state, emitted events). -/
def usb_set_configuration (d : usb_peripheral) (configuration_value : Nat) :
    Nat × usb_peripheral × List usb_event :=
  let new_configuration := usb_find_configuration_descriptor d configuration_value
  if configuration_value ≠ 0 ∧ new_configuration = none then
    (EFAULT, d, [])
  else
    let d := { d with active_configuration := new_configuration }
    let ev := if d.has_configuration_changed_callback then
        [usb_event.configuration_changed] else []
    (0, d, ev)

/- ----------------------------------------------------------------- -/
/- Standard-request engine: send-descriptor and the Chapter-9 handlers -/
/- ----------------------------------------------------------------- -/

/-- `usb_send_descriptor` (identical in both engine variants): NULL stalls;
a configuration descriptor substitutes `total_length`; the length is truncated
to the setup packet's wLength; then the IN block and OUT ACK are scheduled. -/
def usb_send_descriptor (setup : usb_setup) (descriptor : Option usb_descriptor) :
    usb_request_status × List usb_event :=
  match descriptor with
  | none => (.stall, [])
  | some desc =>
      let length_to_send := desc.length
      let length_to_send :=
        if desc.type = USB_DESCRIPTOR_TYPE_CONFIGURATION then desc.total_length
        else length_to_send
      let length_to_send :=
        if setup.length < length_to_send then setup.length else length_to_send
      (.ok, [usb_event.schedule_block_in_desc desc length_to_send,
             usb_event.schedule_ack_out])

/-- `usb_send_descriptor_string` of the libgreat engine: walk the
(index, descriptor) entries to the sentinel; a hit replies with the entry. -/
def usb_send_descriptor_string (setup : usb_setup) (index : Nat) :
    List (Nat × usb_descriptor) → usb_request_status × List usb_event
  | [] => (.stall, [])
  | entry :: rest =>
      if entry.1 = index then usb_send_descriptor setup (some entry.2)
      else usb_send_descriptor_string setup index rest

/-- `usb_standard_request_get_descriptor` of the libgreat engine (the part of
the repository's standard-request file): note the CONFIGURATION lookup uses
`descriptor_index + 1`. -/
def usb_standard_request_get_descriptor (d : usb_peripheral)
    (setup : usb_setup) : usb_request_status × List usb_event :=
  let descriptor_type := setup.value_h
  let descriptor_index := setup.value_l
  if descriptor_type = USB_DESCRIPTOR_TYPE_STRING then
    usb_send_descriptor_string setup descriptor_index d.string_descriptor_entries
  else
    let descriptor : Option usb_descriptor :=
      if descriptor_type = USB_DESCRIPTOR_TYPE_DEVICE then d.device_descriptor
      else if descriptor_type = USB_DESCRIPTOR_TYPE_CONFIGURATION then
        usb_find_configuration_descriptor d (descriptor_index + 1)
      else if descriptor_type = USB_DESCRIPTOR_TYPE_DEVICE_QUALIFIER then
        d.device_qualifier_descriptor
      else if descriptor_type = USB_DESCRIPTOR_TYPE_OTHER_SPEED_CONFIGURATION then
        usb_find_other_speed_configuration_descriptor d descriptor_index
      else none
    match descriptor with
    | some desc => usb_send_descriptor setup (some desc)
    | none => (.stall, [])

/-- The generic-EHCI engine's string-descriptor loop: `for (i = 1;
string_descriptors[i] != 0; i++) if (i == index) send(...)`. -/
def usb_send_descriptor_string_scan (setup : usb_setup) (index : Nat)
    (i : Nat) : List usb_descriptor → usb_request_status × List usb_event
  | [] => (.stall, [])
  | desc :: rest =>
      if i = index then usb_send_descriptor setup (some desc)
      else usb_send_descriptor_string_scan setup index (i + 1) rest

/-- `usb_send_descriptor_string` of the generic-EHCI engine: index 0 replies
with the language descriptor; other indices scan the array from index 1. -/
def usb_send_descriptor_string_ehci (d : usb_peripheral) (setup : usb_setup) :
    usb_request_status × List usb_event :=
  let index := setup.value_l
  if index = 0 then usb_send_descriptor setup d.language_descriptors
  else usb_send_descriptor_string_scan setup index 1 d.string_descriptors_from_one

/-- `usb_standard_request_get_descriptor` of the generic-EHCI engine (the
second variant in usb.c): the CONFIGURATION lookup passes `descriptor_index`
through unchanged. -/
def usb_standard_request_get_descriptor_ehci (d : usb_peripheral)
    (setup : usb_setup) : usb_request_status × List usb_event :=
  let descriptor_type := setup.value_h
  let descriptor_index := setup.value_l
  if descriptor_type = USB_DESCRIPTOR_TYPE_STRING then
    usb_send_descriptor_string_ehci d setup
  else if descriptor_type = USB_DESCRIPTOR_TYPE_DEVICE then
    usb_send_descriptor setup d.device_descriptor
  else if descriptor_type = USB_DESCRIPTOR_TYPE_CONFIGURATION then
    usb_send_descriptor setup (usb_find_configuration_descriptor d setup.value_l)
  else if descriptor_type = USB_DESCRIPTOR_TYPE_DEVICE_QUALIFIER then
    usb_send_descriptor setup d.device_qualifier_descriptor
  else if descriptor_type = USB_DESCRIPTOR_TYPE_OTHER_SPEED_CONFIGURATION then
    usb_send_descriptor setup
      (usb_find_other_speed_configuration_descriptor d descriptor_index)
  else (.stall, [])

/-- `usb_standard_request_set_configuration`: apply the configuration, stall
on failure, otherwise ACK on IN. -/
def usb_standard_request_set_configuration (d : usb_peripheral)
    (setup : usb_setup) : usb_request_status × usb_peripheral × List usb_event :=
  let usb_configuration := setup.value_l
  let rcd := usb_set_configuration d usb_configuration
  if rcd.1 ≠ 0 then (.stall, rcd.2.1, rcd.2.2)
  else (.ok, rcd.2.1, rcd.2.2 ++ [usb_event.schedule_ack_in])

/-- `usb_standard_request_get_configuration`: stall unless wLength = 1; the
static `configuration_index` cell is overwritten only while a configuration is
active, then the cell's (possibly stale) value is transmitted. -/
def usb_standard_request_get_configuration (d : usb_peripheral)
    (setup : usb_setup) : usb_request_status × usb_peripheral × List usb_event :=
  if setup.length ≠ 1 then (.stall, d, [])
  else
    let d := match d.active_configuration with
      | some config => { d with get_configuration_static := config.value }
      | none => d
    (.ok, d, [usb_event.schedule_block_in_bytes [d.get_configuration_static],
              usb_event.schedule_ack_out])

/- ----------------------------------------------------------------- -/
/- Register facade and device-mode controller (usb.c)                 -/
/- ----------------------------------------------------------------- -/

/-- `usb_get_status`: read usbsts masked by usbintr, then write the read value
back (usbsts is write-one-to-clear, so the write clears exactly the bits of
the written value).  `late` carries the interrupt bits the hardware raises
between the read and the write-back; the source performs the two register
accesses in exactly this order. -/
def usb_get_status (d : usb_peripheral) (late : Nat) : Nat × usb_peripheral :=
  let status := d.usbsts &&& d.usbintr
  let d := { d with usbsts := d.usbsts ||| late }
  (status, { d with usbsts := d.usbsts &&& compl32 status })

/-- `usb_copy_setup`: decode the 8 raw setup bytes into the setup fields. -/
def usb_copy_setup (src : Nat → Nat) : usb_setup :=
  { request_type := src 0, request := src 1, value_l := src 2, value_h := src 3,
    index_l := src 4, index_h := src 5, length_l := src 6, length_h := src 7 }

/-- `usb_clear_endpoint_setup_status`: write-one-to-clear the given bits and
spin until they read clear; the post-state has them clear. -/
def usb_clear_endpoint_setup_status (bits : Nat) (d : usb_peripheral) :
    usb_peripheral :=
  { d with endptsetupstat := d.endptsetupstat &&& compl32 bits }

/-- `usb_get_endpoint_setup_status`. -/
def usb_get_endpoint_setup_status (d : usb_peripheral) : Nat :=
  d.endptsetupstat

/-- `usb_clear_endpoint_complete` (write-one-to-clear). -/
def usb_clear_endpoint_complete (bits : Nat) (d : usb_peripheral) :
    usb_peripheral :=
  { d with endptcomplete := d.endptcomplete &&& compl32 bits }

/-- `usb_get_endpoint_complete`. -/
def usb_get_endpoint_complete (d : usb_peripheral) : Nat := d.endptcomplete

/-- `usb_disable_all_endpoints`: clear the RXE and TXE bits of
`endptctrl[0..5]`. -/
def usb_disable_all_endpoints (d : usb_peripheral) : usb_peripheral :=
  (List.range 6).foldl
    (fun d i =>
      { d with endptctrl := (Function.update d.endptctrl i
          (d.endptctrl i &&& compl32 (USB0_ENDPTCTRL_RXE ||| USB0_ENDPTCTRL_TXE))) })
    d

/-- `usb_clear_pending_interrupts`: endptnak is write-one-to-clear; endptnaken
is a plain write of the mask; usbsts, endptsetupstat and endptcomplete are
write-one-to-clear with the values the source writes. -/
def usb_clear_pending_interrupts (mask : Nat) (d : usb_peripheral) :
    usb_peripheral :=
  let d := { d with endptnak := d.endptnak &&& compl32 mask }
  let d := { d with endptnaken := mask }
  let d := { d with usbsts := d.usbsts &&& compl32 mask }
  let d := { d with endptsetupstat :=
      d.endptsetupstat &&& compl32 (d.endptsetupstat &&& mask) }
  { d with endptcomplete :=
      d.endptcomplete &&& compl32 (d.endptcomplete &&& mask) }

/-- `usb_clear_all_pending_interrupts`. -/
def usb_clear_all_pending_interrupts (d : usb_peripheral) : usb_peripheral :=
  usb_clear_pending_interrupts mask32 d

/-- `usb_flush_primed_endpoints`: wait for priming to finish, issue FLUSH,
wait for the flush bits to clear.  The post-state reflects the hardware having
acknowledged both waits: the masked prime and flush bits read clear. -/
def usb_flush_primed_endpoints (mask : Nat) (d : usb_peripheral) :
    usb_peripheral :=
  let d := { d with endptprime := d.endptprime &&& compl32 mask }
  { d with endptflush := d.endptflush &&& compl32 mask }

/-- `usb_flush_all_primed_endpoints`. -/
def usb_flush_all_primed_endpoints (d : usb_peripheral) : usb_peripheral :=
  usb_flush_primed_endpoints mask32 d

/-- `usb_reset_all_endpoints`. -/
def usb_reset_all_endpoints (d : usb_peripheral) : usb_peripheral :=
  usb_flush_all_primed_endpoints
    (usb_clear_all_pending_interrupts (usb_disable_all_endpoints d))

/-- `usb_set_address_immediate`: write the shifted address with USBADRA clear. -/
def usb_set_address_immediate (d : usb_peripheral) (address : Nat) :
    usb_peripheral :=
  { d with deviceaddr := USB0_DEVICEADDR_USBADR address }

/-- `usb_set_address_deferred`: write the shifted address with USBADRA set. -/
def usb_set_address_deferred (d : usb_peripheral) (address : Nat) :
    usb_peripheral :=
  { d with deviceaddr := USB0_DEVICEADDR_USBADR address ||| USB0_DEVICEADDR_USBADRA }

/-- `usb_bus_reset`: reset all endpoints, write address 0 immediately, apply
configuration 0. -/
def usb_bus_reset (d : usb_peripheral) : usb_peripheral × List usb_event :=
  let d := usb_reset_all_endpoints d
  let d := usb_set_address_immediate d 0
  let rcd := usb_set_configuration d 0
  (rcd.2.1, rcd.2.2)

/- ----------------------------------------------------------------- -/
/- Device-mode ISR (usb.c): both copies of usb_check_for_setup_events -/
/- ----------------------------------------------------------------- -/

/-- The work done for one pending SETUP event on endpoint `i` (shared by both
loop variants): copy the dQH's 8 setup bytes into the OUT endpoint's cache and
its IN sibling's cache, write-clear the setup-status bit (spinning until
clear), flush the IN then the OUT control endpoint, then invoke
`setup_complete` when registered. -/
def usb_handle_one_setup_event (i : Nat) (bit : Nat) (d : usb_peripheral)
    (ev : List usb_event) : usb_peripheral × List usb_event :=
  let s := usb_copy_setup (d.dqh_setup i)
  let d := { d with out_setup := Function.update d.out_setup i s }
  let ev := ev ++ [usb_event.copied_setup_out i]
  let d := { d with in_setup := Function.update d.in_setup i s }
  let ev := ev ++ [usb_event.copied_setup_in i]
  let d := usb_clear_endpoint_setup_status bit d
  let ev := ev ++ [usb_event.cleared_setup_status i]
  let ev := ev ++ [usb_event.flushed_in i, usb_event.flushed_out i]
  let ev := if d.has_setup_complete i then ev ++ [usb_event.setup_complete i]
            else ev
  (d, ev)

/-- The loop body of the FIRST `usb_check_for_setup_events` in usb.c: the
`endptsetupstat_bit` variable is initialized to 0 and is tested BEFORE being
assigned for the current iteration (the assignment sits inside the taken
branch), exactly as the source reads. -/
def usb_setup_events_loop_first (stat : Nat) :
    List Nat → Nat → usb_peripheral → List usb_event →
    usb_peripheral × List usb_event
  | [], _, d, ev => (d, ev)
  | i :: rest, endptsetupstat_bit, d, ev =>
      if stat &&& endptsetupstat_bit ≠ 0 then
        let endptsetupstat_bit := 1 <<< i
        let dev := usb_handle_one_setup_event i endptsetupstat_bit d ev
        usb_setup_events_loop_first stat rest endptsetupstat_bit dev.1 dev.2
      else
        usb_setup_events_loop_first stat rest endptsetupstat_bit d ev

/-- The FIRST `usb_check_for_setup_events` in usb.c (lpc43xx section). -/
def usb_check_for_setup_events_first (d : usb_peripheral) :
    usb_peripheral × List usb_event :=
  let endptsetupstat := usb_get_endpoint_setup_status d
  if endptsetupstat ≠ 0 then
    usb_setup_events_loop_first endptsetupstat (List.range 6) 0 d []
  else (d, [])

/-- The loop body of the SECOND `usb_check_for_setup_events` in usb.c
(generic-EHCI section): the bit for endpoint `i` is computed first, then
tested against the captured `endptsetupstat`. -/
def usb_setup_events_loop_second (stat : Nat) :
    List Nat → usb_peripheral → List usb_event →
    usb_peripheral × List usb_event
  | [], d, ev => (d, ev)
  | i :: rest, d, ev =>
      let endptsetupstat_bit := 1 <<< i
      if stat &&& endptsetupstat_bit ≠ 0 then
        let dev := usb_handle_one_setup_event i endptsetupstat_bit d ev
        usb_setup_events_loop_second stat rest dev.1 dev.2
      else
        usb_setup_events_loop_second stat rest d ev

/-- The SECOND `usb_check_for_setup_events` in usb.c. -/
def usb_check_for_setup_events_second (d : usb_peripheral) :
    usb_peripheral × List usb_event :=
  let endptsetupstat := usb_get_endpoint_setup_status d
  if endptsetupstat ≠ 0 then
    usb_setup_events_loop_second endptsetupstat (List.range 6) d []
  else (d, [])

/-- The loop of `usb_check_for_transfer_events` (identical in both copies):
for each endpoint number, handle the OUT complete bit (bits 5:0) and then the
IN complete bit (bits 21:16), clearing each and invoking `transfer_complete`
when the endpoint and callback exist. -/
def usb_transfer_events_loop (comp : Nat) :
    List Nat → usb_peripheral → List usb_event →
    usb_peripheral × List usb_event
  | [], d, ev => (d, ev)
  | i :: rest, d, ev =>
      let endptcomplete_out_bit := 1 <<< i
      let dev :=
        if comp &&& endptcomplete_out_bit ≠ 0 then
          let d := usb_clear_endpoint_complete endptcomplete_out_bit d
          let ev := if d.has_transfer_complete_out i then
              ev ++ [usb_event.transfer_complete_out i] else ev
          (d, ev)
        else (d, ev)
      let d := dev.1
      let ev := dev.2
      let endptcomplete_in_bit := (1 <<< i) <<< 16
      let dev :=
        if comp &&& endptcomplete_in_bit ≠ 0 then
          let d := usb_clear_endpoint_complete endptcomplete_in_bit d
          let ev := if d.has_transfer_complete_in i then
              ev ++ [usb_event.transfer_complete_in i] else ev
          (d, ev)
        else (d, ev)
      usb_transfer_events_loop comp rest dev.1 dev.2

/-- `usb_check_for_transfer_events`. -/
def usb_check_for_transfer_events (d : usb_peripheral) :
    usb_peripheral × List usb_event :=
  let endptcomplete := usb_get_endpoint_complete d
  if endptcomplete ≠ 0 then
    usb_transfer_events_loop endptcomplete (List.range 6) d []
  else (d, [])

/-- `usb_device_isr` built over the FIRST `usb_check_for_setup_events`: on the
USB interrupt, setup events are checked before transfer-complete events; a USB
reset runs the bus-reset handler. -/
def usb_device_isr_first (d : usb_peripheral) :
    usb_peripheral × List usb_event :=
  let sd := usb_get_status d 0
  let status := sd.1
  let d := sd.2
  if status = 0 then (d, [])
  else
    let dev :=
      if status &&& USB0_USBSTS_D_UI ≠ 0 then
        let dev := usb_check_for_setup_events_first d
        let dev2 := usb_check_for_transfer_events dev.1
        (dev2.1, dev.2 ++ dev2.2)
      else (d, [])
    if status &&& USB0_USBSTS_D_URI ≠ 0 then
      let brd := usb_bus_reset dev.1
      (brd.1, dev.2 ++ brd.2)
    else dev

/-- `usb_device_isr` built over the SECOND `usb_check_for_setup_events`. -/
def usb_device_isr_second (d : usb_peripheral) :
    usb_peripheral × List usb_event :=
  let sd := usb_get_status d 0
  let status := sd.1
  let d := sd.2
  if status = 0 then (d, [])
  else
    let dev :=
      if status &&& USB0_USBSTS_D_UI ≠ 0 then
        let dev := usb_check_for_setup_events_second d
        let dev2 := usb_check_for_transfer_events dev.1
        (dev2.1, dev.2 ++ dev2.2)
      else (d, [])
    if status &&& USB0_USBSTS_D_URI ≠ 0 then
      let brd := usb_bus_reset dev.1
      (brd.1, dev.2 ++ brd.2)
    else dev

/- ----------------------------------------------------------------- -/
/- Host-mode storage pools (usb_queue_host.c)                         -/
/- ----------------------------------------------------------------- -/

/-- A freelist as the source lays it out: a head cell (an `ehci_link_t` whose
terminate bit models `none`) and the `horizontal` link cell of each pool
element, indexed by its position in the pool array. -/
structure freelist_state where
  head : Option Nat
  next : Nat → Option Nat

/-- The link cells of one pool after its initialization loop and terminator
write: the loop links element `i` to `i + 1` for `i` below `count - 1`, then
the terminator is written at index `terminator` (overriding the loop's value
there); cells the code leaves at their BSS value are modelled as terminating
-- no in-range cell is left at that value when `terminator = count - 1`. -/
def pool_chain_links (count terminator : Nat) : Nat → Option Nat := fun i =>
  if i = terminator then none
  else if i < count - 1 then some (i + 1)
  else none

/-- `usb_host_initialize_storage_pools`, parameterized by the two pool-size
constants `USB_HOST_MAX_QUEUE_HEADS` (`qh_count`) and
`USB_HOST_MAX_TRANSFER_DESCRIPTORS` (`td_count`), which live in a header that
is not part of the staged sources.  Both heads point at element 0; each pool
gets its chain links -- and the transfer pool's terminator line indexes with
the QUEUE-HEAD count (`transfer_pool[USB_HOST_MAX_QUEUE_HEADS - 1]`), exactly
as the source does. -/
def usb_host_initialize_storage_pools (qh_count td_count : Nat) :
    freelist_state × freelist_state :=
  ({ head := some 0, next := pool_chain_links qh_count (qh_count - 1) },
   { head := some 0, next := pool_chain_links td_count (qh_count - 1) })

/-- `usb_host_allocate_from_freelist`: a terminating head fails; otherwise the
first element is unlinked (the head advances to its stored next) and the
allocated element's link cell is cleared and terminated. -/
def usb_host_allocate_from_freelist (fl : freelist_state) :
    Option Nat × freelist_state :=
  match fl.head with
  | none => (none, fl)
  | some allocated =>
      (some allocated,
       { head := fl.next allocated,
         next := Function.update fl.next allocated none })

/-- `usb_host_add_to_list`: the freed element's link cell takes the head
cell's value, then the head points at the freed element. -/
def usb_host_add_to_list (fl : freelist_state) (x : Nat) : freelist_state :=
  { head := some x, next := Function.update fl.next x fl.head }

/-- Allocate `n` times in sequence, returning the allocated indices in order,
or `none` as soon as an allocation fails. -/
def usb_host_allocate_n : Nat → freelist_state → Option (List Nat × freelist_state)
  | 0, fl => some ([], fl)
  | n + 1, fl =>
      match usb_host_allocate_from_freelist fl with
      | (none, _) => none
      | (some a, fl') =>
          match usb_host_allocate_n n fl' with
          | none => none
          | some (as_, fl'') => some (a :: as_, fl'')

/-- The freelist `fl` holds exactly the elements of `L`, in order, each linked
to the next and the last linked to the terminator. -/
def freelist_holds (fl : freelist_state) : List Nat → Prop
  | [] => fl.head = none
  | a :: rest =>
      fl.head = some a ∧ freelist_holds { head := fl.next a, next := fl.next } rest

/- ----------------------------------------------------------------- -/
/- Host-mode transfers, pending list and the completion reaper        -/
/- ----------------------------------------------------------------- -/

/-- Actions the host-side queue code performs on memory and callbacks. -/
inductive host_event where
  /-- `memset(&transfer->td, 0, sizeof(transfer->td))` against the transfer at
  the given pool index, or through a NULL `transfer` pointer when `none`. -/
  | memset_td (target : Option Nat)
  /-- `glitchkit_notify_event(GLITCHKIT_USBHOST_START_TD)`. -/
  | glitchkit_start_td
  /-- `glitchkit_notify_event(glitchkit_events_for_pid_start[pid_code])`. -/
  | glitchkit_start_pid (pid_code : Nat)
  /-- `glitchkit_notify_event(glitchkit_events_for_pid_finish[pid_code])`. -/
  | glitchkit_finish_pid (pid_code : Nat)
  /-- `transfer->completion_cb(user_data, bytes_transferred, halted,
  transaction_error)` for the transfer at pool index `i`. -/
  | completion_cb (i : Nat) (user_data bytes_transferred : Nat)
      (halted transaction_error : Bool)
  /-- `usb_host_free_transfer` returned pool element `i` to the freelist. -/
  | freed_transfer (i : Nat)
deriving DecidableEq

/-- The memory the host-side transfer code touches: the pending-transfers root
cell and the transfer freelist's root cell, and for each `ehci_transfer_t` in
`transfer_pool` its `horizontal` link cell, its embedded TD's fields, and the
software completion fields.  The same `horizontal` cell serves as freelist
link and pending-list link, exactly as in the source. -/
structure host_mem where
  /-- `host->pending_transfers` (terminate bit modelled as `none`). -/
  pending_root : Option Nat
  /-- `transfer_freelist` (the root cell). -/
  tdfree_root : Option Nat
  /-- `transfer_pool[i].horizontal`. -/
  node_link : Nat → Option Nat
  /-- `transfer_pool[i].td.next_dtd_pointer` (terminate = `none`). -/
  td_next_dtd : Nat → Option Nat
  td_active : Nat → Bool
  td_halted : Nat → Bool
  td_transaction_error : Nat → Bool
  td_total_bytes : Nat → Nat
  td_pid_code : Nat → Nat
  td_data_toggle : Nat → Nat
  td_int_on_complete : Nat → Bool
  td_buffer_pointer_page : Nat → List Nat
  /-- whether `transfer_pool[i].completion_cb` is non-NULL. -/
  has_completion_cb : Nat → Bool
  user_data : Nat → Nat
  maximum_length : Nat → Nat
  /-- `qh->overlay.next_dtd_pointer` of the queue head being scheduled on. -/
  qh_overlay_next_dtd : Option Nat

/-- The transfer freelist viewed through the shared link cells. -/
def host_mem.tdfree (m : host_mem) : freelist_state :=
  { head := m.tdfree_root, next := m.node_link }

/-- Write the freelist view back into the shared cells. -/
def host_mem.set_tdfree (m : host_mem) (fl : freelist_state) : host_mem :=
  { m with tdfree_root := fl.head, node_link := fl.next }

/-- `usb_host_allocate_transfer`: allocate from the transfer freelist, then
`memset(&transfer->td, 0, ...)` -- the memset is UNconditional in the source
(its comment says "if we have one", but there is no check), so on exhaustion
it is recorded as a write through a NULL transfer pointer and no pool object
changes; on success the embedded TD is zeroed. -/
def usb_host_allocate_transfer (m : host_mem) :
    Option Nat × host_mem × List host_event :=
  let afl := usb_host_allocate_from_freelist m.tdfree
  let m := m.set_tdfree afl.2
  match afl.1 with
  | none => (none, m, [host_event.memset_td none])
  | some i =>
      let m := { m with
        td_next_dtd := Function.update m.td_next_dtd i none,
        td_active := Function.update m.td_active i false,
        td_halted := Function.update m.td_halted i false,
        td_transaction_error := Function.update m.td_transaction_error i false,
        td_total_bytes := Function.update m.td_total_bytes i 0,
        td_pid_code := Function.update m.td_pid_code i 0,
        td_data_toggle := Function.update m.td_data_toggle i 0,
        td_int_on_complete := Function.update m.td_int_on_complete i false,
        td_buffer_pointer_page := Function.update m.td_buffer_pointer_page i [0, 0, 0, 0, 0] }
      (some i, m, [host_event.memset_td (some i)])

/-- `usb_host_free_transfer`. -/
def usb_host_free_transfer (m : host_mem) (i : Nat) : host_mem :=
  m.set_tdfree (usb_host_add_to_list m.tdfree i)

/-- `usb_host_add_transfer_to_pending_list`: push onto the pending list
through the same shared link cell. -/
def usb_host_add_transfer_to_pending_list (m : host_mem) (i : Nat) : host_mem :=
  { m with node_link := Function.update m.node_link i m.pending_root,
           pending_root := some i }

/-- The tail walk of `usb_host_transfer_schedule` continued from pool element
`cursor`: follow `next_dtd_pointer` until a terminating link and write the new
TD there.  `fuel` bounds the walk (the source loop is unbounded). -/
def usb_host_append_td_walk : Nat → host_mem → Nat → Nat → host_mem
  | 0, m, _, _ => m
  | fuel + 1, m, cursor, td =>
      match m.td_next_dtd cursor with
      | none =>
          { m with td_next_dtd := Function.update m.td_next_dtd cursor (some td) }
      | some nxt => usb_host_append_td_walk fuel m nxt td

/-- The critical-section tail append of `usb_host_transfer_schedule`: start at
`&qh->overlay` and iterate until a link has the terminate bit set, then link
the new TD there. -/
def usb_host_append_td (fuel : Nat) (m : host_mem) (td : Nat) : host_mem :=
  match m.qh_overlay_next_dtd with
  | none => { m with qh_overlay_next_dtd := some td }
  | some first => usb_host_append_td_walk fuel m first td

/-- `usb_host_transfer_schedule`: allocate a transfer (including the
allocator's unconditional memset), fail with -1 on exhaustion, otherwise
notify GlitchKit, populate the TD and the software completion fields, and --
inside the interrupt-disabled critical section -- push the transfer onto the
pending list and append its TD at the tail of the queue head's overlay chain.
Returns (rc, memory, actions). -/
def usb_host_transfer_schedule (fuel : Nat) (m : host_mem)
    (pid_code data_toggle : Nat) (data : Nat) (maximum_length : Nat)
    (completion_cb_present : Bool) (user_data : Nat) :
    Int × host_mem × List host_event :=
  let atr := usb_host_allocate_transfer m
  match atr.1 with
  | none => (-1, atr.2.1, atr.2.2)
  | some i =>
      let m := atr.2.1
      let ev := atr.2.2
      let ev := ev ++ [host_event.glitchkit_start_td,
                       host_event.glitchkit_start_pid pid_code]
      let m := { m with
        td_next_dtd := Function.update m.td_next_dtd i none,
        td_total_bytes := Function.update m.td_total_bytes i maximum_length,
        td_active := Function.update m.td_active i true,
        td_pid_code := Function.update m.td_pid_code i pid_code,
        td_data_toggle := Function.update m.td_data_toggle i data_toggle,
        td_int_on_complete := Function.update m.td_int_on_complete i true,
        td_buffer_pointer_page := Function.update m.td_buffer_pointer_page i
          [data, (data + 4096) &&& 4294963200, (data + 8192) &&& 4294963200,
           (data + 12288) &&& 4294963200, (data + 16384) &&& 4294963200],
        has_completion_cb := Function.update m.has_completion_cb i completion_cb_present,
        user_data := Function.update m.user_data i user_data,
        maximum_length := Function.update m.maximum_length i maximum_length }
      let m := usb_host_add_transfer_to_pending_list m i
      let m := usb_host_append_td fuel m i
      (0, m, ev)

/-- A pointer to an `ehci_link_t` cell reachable from the pending-transfer
iteration: the list's root cell inside the peripheral, or the `horizontal`
cell of pool element `i`. -/
inductive pending_cell where
  | root
  | node (i : Nat)
deriving DecidableEq

/-- Read an `ehci_link_t` cell (`next_link` semantics: terminate = `none`). -/
def host_mem.read_cell (m : host_mem) : pending_cell → Option Nat
  | .root => m.pending_root
  | .node i => m.node_link i

/-- Store into an `ehci_link_t` cell. -/
def host_mem.write_cell (m : host_mem) : pending_cell → Option Nat → host_mem
  | .root, v => { m with pending_root := v }
  | .node i, v => { m with node_link := Function.update m.node_link i v }

/-- The loop of `usb_host_handle_asynchronous_transfer_complete`: `previous`
and `link` are the cursor pair; a completed transfer fires GlitchKit (when the
PID code is within the table) and the completion callback, then
`previous->link = transfer->horizontal.link`, then BOTH cursors advance onto
the removed node (`previous = link; link = next_link(link)`), and only then is
the transfer freed -- the cursor reassignment in this branch is exactly the
source's. -/
def usb_host_reap_loop : Nat → host_mem → pending_cell → Option Nat →
    List host_event → host_mem × List host_event
  | 0, m, _, _, ev => (m, ev)
  | fuel + 1, m, previous, link, ev =>
      match link with
      | none => (m, ev)
      | some i =>
          if m.td_active i then
            usb_host_reap_loop fuel m (pending_cell.node i) (m.node_link i) ev
          else
            let ev := if m.td_pid_code i < 3 then
                ev ++ [host_event.glitchkit_finish_pid (m.td_pid_code i)]
              else ev
            let ev := if m.has_completion_cb i then
                ev ++ [host_event.completion_cb i (m.user_data i)
                        (m.maximum_length i - m.td_total_bytes i)
                        (m.td_halted i) (m.td_transaction_error i)]
              else ev
            let m := m.write_cell previous (m.node_link i)
            let previous := pending_cell.node i
            let link := m.node_link i
            let m := usb_host_free_transfer m i
            let ev := ev ++ [host_event.freed_transfer i]
            usb_host_reap_loop fuel m previous link ev

/-- `usb_host_handle_asynchronous_transfer_complete`. -/
def usb_host_handle_asynchronous_transfer_complete (fuel : Nat)
    (m : host_mem) : host_mem × List host_event :=
  usb_host_reap_loop fuel m pending_cell.root m.pending_root []

/- ----------------------------------------------------------------- -/
/- Concrete states used to evaluate the code on specific inputs       -/
/- ----------------------------------------------------------------- -/

/-- The all-zero setup packet. -/
def zero_setup : usb_setup :=
  { request_type := 0, request := 0, value_l := 0, value_h := 0,
    index_l := 0, index_h := 0, length_l := 0, length_h := 0 }

/-- A quiescent peripheral: all registers zero, no descriptors, no callbacks. -/
def base_peripheral : usb_peripheral where
  usbsts := 0
  usbintr := 0
  deviceaddr := 0
  portsc1 := 0
  endptsetupstat := 0
  endptprime := 0
  endptflush := 0
  endptstat := 0
  endptcomplete := 0
  endptnak := 0
  endptnaken := 0
  endptctrl := fun _ => 0
  configuration_count := 0
  device_descriptor := none
  device_qualifier_descriptor := none
  full_speed_configurations := none
  high_speed_configurations := none
  active_configuration := none
  has_configuration_changed_callback := false
  string_descriptor_entries := []
  language_descriptors := none
  string_descriptors_from_one := []
  dqh_setup := fun _ _ => 0
  out_setup := fun _ => zero_setup
  in_setup := fun _ => zero_setup
  has_setup_complete := fun _ => false
  has_transfer_complete_out := fun _ => false
  has_transfer_complete_in := fun _ => false
  get_configuration_static := 0

/-- A single full-speed configuration descriptor with value 1
(bLength 9, type CONFIGURATION, wTotalLength 25). -/
def config_one : usb_descriptor :=
  { length := 9, type := 2, total_length := 25, value := 1 }

/-- A full-speed device exposing exactly `config_one`. -/
def one_config_device : usb_peripheral :=
  { base_peripheral with
      configuration_count := 1,
      full_speed_configurations := some [config_one] }

/-- The device state for evaluating the two ISR setup-event variants: a
device-mode interrupt is pending (UI set and unmasked), endpoint 0 has a
SETUP packet waiting (ENDPTSETUPSTAT bit 0) whose dQH holds the bytes of
SET_ADDRESS(0x2A), endpoint 0's OUT transfer-complete bit is also pending,
and endpoint 0 has both callbacks registered. -/
def isr_test_device : usb_peripheral :=
  { base_peripheral with
      usbsts := USB0_USBSTS_D_UI,
      usbintr := USB0_USBSTS_D_UI,
      endptsetupstat := 1,
      endptcomplete := 1,
      dqh_setup := fun i b =>
        if i = 0 then [0, 5, 42, 0, 0, 0, 0, 0].getD b 0 else 0,
      has_setup_complete := fun i => i == 0,
      has_transfer_complete_out := fun i => i == 0 }

/-- GET_DESCRIPTOR(CONFIGURATION, index 0) with wLength 64. -/
def get_config_descriptor_setup : usb_setup :=
  { zero_setup with request_type := 128, request := 6,
                    value_l := 0, value_h := 2, length_l := 64 }

/-- SET_CONFIGURATION(1). -/
def set_configuration_1_setup : usb_setup :=
  { zero_setup with request := 9, value_l := 1 }

/-- SET_CONFIGURATION(0). -/
def set_configuration_0_setup : usb_setup :=
  { zero_setup with request := 9, value_l := 0 }

/-- GET_CONFIGURATION with wLength 1. -/
def get_configuration_setup : usb_setup :=
  { zero_setup with request_type := 128, request := 8, length_l := 1 }

/-- The state after handling SET_CONFIGURATION(1) on `one_config_device`. -/
def after_set_configuration_1 : usb_peripheral :=
  (usb_standard_request_set_configuration one_config_device
    set_configuration_1_setup).2.1

/-- ... then handling GET_CONFIGURATION (which replies 1 and caches it in the
static cell). -/
def after_first_get_configuration : usb_peripheral :=
  (usb_standard_request_get_configuration after_set_configuration_1
    get_configuration_setup).2.1

/-- ... then handling SET_CONFIGURATION(0), de-configuring the device. -/
def after_set_configuration_0 : usb_peripheral :=
  (usb_standard_request_set_configuration after_first_get_configuration
    set_configuration_0_setup).2.1

/-- The base host-side memory: empty pending list, empty freelist, all
transfer fields zeroed. -/
def base_host_mem : host_mem where
  pending_root := none
  tdfree_root := none
  node_link := fun _ => none
  td_next_dtd := fun _ => none
  td_active := fun _ => false
  td_halted := fun _ => false
  td_transaction_error := fun _ => false
  td_total_bytes := fun _ => 0
  td_pid_code := fun _ => 0
  td_data_toggle := fun _ => 0
  td_int_on_complete := fun _ => false
  td_buffer_pointer_page := fun _ => []
  has_completion_cb := fun _ => false
  user_data := fun _ => 0
  maximum_length := fun _ => 0
  qh_overlay_next_dtd := none

/-- Host memory whose pending list holds transfers 0 and 1 (in that order),
both already completed by the hardware (active clear), both with completion
callbacks, user data 10+i, maximum length 100 and 25 bytes left untransferred. -/
def two_complete_pending_mem : host_mem :=
  { base_host_mem with
      pending_root := some 0,
      node_link := fun i => if i = 0 then some 1 else none,
      has_completion_cb := fun i => i == 0 || i == 1,
      user_data := fun i => 10 + i,
      maximum_length := fun _ => 100,
      td_total_bytes := fun _ => 25 }

/-- SET_CONFIGURATION(2) -- a value no configuration descriptor carries. -/
def set_configuration_2_setup : usb_setup :=
  { zero_setup with request := 9, value_l := 2 }

/-- A device in a dirty state before a bus reset: nonzero address, every
endpoint control register fully set, a configuration active. -/
def dirty_device : usb_peripheral :=
  { base_peripheral with
      deviceaddr := 77,
      endptctrl := fun _ => mask32,
      active_configuration := some config_one,
      configuration_count := 1,
      full_speed_configurations := some [config_one] }

/-- A device with usbsts = 5 (UI and PCI pending) but only UI unmasked. -/
def status_test_device : usb_peripheral :=
  { base_peripheral with usbsts := 5, usbintr := 1 }

/- ----------------------------------------------------------------- -/
/- Helper lemmas                                                      -/
/- ----------------------------------------------------------------- -/

/-- Clearing bits with `x &= ~m` leaves nothing of `m`: for a mask below 2^32,
`(x & ~m) & m = 0`. -/
theorem land_compl32_land (x m : Nat) (hm : m < 4294967296) :
    (x &&& compl32 m) &&& m = 0 := by
  apply Nat.eq_of_testBit_eq
  intro i
  simp only [Nat.testBit_land, compl32, mask32, Nat.testBit_xor, Nat.zero_testBit]
  by_cases him : m.testBit i = true
  · have hi : i < 32 := by
      by_contra hge
      push_neg at hge
      have hpow : (4294967296 : Nat) ≤ 2 ^ i := by
        calc (4294967296 : Nat) = 2 ^ 32 := by norm_num
          _ ≤ 2 ^ i := Nat.pow_le_pow_right (by norm_num) hge
      have hlt : m < 2 ^ i := lt_of_lt_of_le hm hpow
      rw [Nat.testBit_lt_two_pow hlt] at him
      exact Bool.noConfusion him
    have h1 : (4294967295 : Nat).testBit i = true := by
      have h32 : (4294967295 : Nat) = 2 ^ 32 - 1 := by norm_num
      rw [h32, Nat.testBit_two_pow_sub_one]
      simpa using hi
    simp [him, h1]
  · simp only [Bool.not_eq_true] at him
    simp [him]

/- ----------------------------------------------------------------- -/
/- Claim theorems                                                     -/
/- ----------------------------------------------------------------- -/

/-- C7: for every setup packet and non-null resolved descriptor, the IN data
stage schedules exactly min(L, wLength) bytes, where L is the descriptor
length, or the configuration total_length for a configuration descriptor
(so a wLength above L sends the full L bytes, unpadded). -/
theorem usb_send_descriptor_schedules_min_length (setup : usb_setup)
    (desc : usb_descriptor) :
    usb_send_descriptor setup (some desc) =
      (usb_request_status.ok,
       [usb_event.schedule_block_in_desc desc
          (min (if desc.type = USB_DESCRIPTOR_TYPE_CONFIGURATION then
                  desc.total_length else desc.length)
               setup.length),
        usb_event.schedule_ack_out]) := by
  have hmin : ∀ a b : Nat, (if a < b then a else b) = min b a := by
    intro a b
    rcases Nat.lt_or_ge a b with h | h
    · rw [if_pos h, Nat.min_eq_right (Nat.le_of_lt h)]
    · rw [if_neg (Nat.not_lt.mpr h), Nat.min_eq_left h]
  by_cases hc : desc.type = USB_DESCRIPTOR_TYPE_CONFIGURATION <;>
    simp [usb_send_descriptor, hc, hmin]

/-- C1: on a device-mode interrupt with the USB-interrupt bit set and
ENDPTSETUPSTAT bit 0 set, the FIRST `usb_check_for_setup_events` variant
(usb.c, lpc43xx section) handles nothing: its loop guard tests
`endptsetupstat_bit` before assigning it, so the guard is never true -- no
setup copy, no status clear, no flush, no `setup_complete`; its ISR still
dispatches the pending ENDPTCOMPLETE callback.  The SECOND variant on the
same state performs exactly the claimed sequence (copy to both caches, clear,
flush IN and OUT, `setup_complete`), all before the transfer-complete
callback. -/
theorem isr_first_variant_drops_setup_events :
    (usb_check_for_setup_events_first isr_test_device).2 = [] ∧
    (usb_check_for_setup_events_first isr_test_device).1.endptsetupstat = 1 ∧
    ((usb_check_for_setup_events_first isr_test_device).1.out_setup 0).request = 0 ∧
    (usb_device_isr_first isr_test_device).2 =
      [usb_event.transfer_complete_out 0] ∧
    (usb_device_isr_second isr_test_device).2 =
      [usb_event.copied_setup_out 0, usb_event.copied_setup_in 0,
       usb_event.cleared_setup_status 0, usb_event.flushed_in 0,
       usb_event.flushed_out 0, usb_event.setup_complete 0,
       usb_event.transfer_complete_out 0] ∧
    ((usb_device_isr_second isr_test_device).1.out_setup 0).request = 5 ∧
    ((usb_device_isr_second isr_test_device).1.out_setup 0).value_l = 42 ∧
    ((usb_device_isr_second isr_test_device).1.in_setup 0).request = 5 ∧
    (usb_device_isr_second isr_test_device).1.endptsetupstat = 0 := by
  decide

/-- C6: one reaper run over a pending list holding two consecutively linked
completed transfers (0 then 1) fires both completion callbacks with
bytes_transferred = maximum_length - total_bytes and frees both, but the
cursor slip (`previous = link` in the completed branch) makes the second
unlink write into the already-freed first node: afterwards the pending-list
root still points at transfer 1, whose link cell (now the freelist link)
points at transfer 0, so both freed transfers remain reachable from the
pending list. -/
theorem reaper_leaves_consecutive_completions_pending :
    ((usb_host_handle_asynchronous_transfer_complete 8
        two_complete_pending_mem).1.pending_root = some 1) ∧
    ((usb_host_handle_asynchronous_transfer_complete 8
        two_complete_pending_mem).1.node_link 1 = some 0) ∧
    ((usb_host_handle_asynchronous_transfer_complete 8
        two_complete_pending_mem).1.tdfree_root = some 1) ∧
    ((usb_host_handle_asynchronous_transfer_complete 8
        two_complete_pending_mem).2 =
      [host_event.glitchkit_finish_pid 0,
       host_event.completion_cb 0 10 75 false false,
       host_event.freed_transfer 0,
       host_event.glitchkit_finish_pid 0,
       host_event.completion_cb 1 11 75 false false,
       host_event.freed_transfer 1]) := by
  decide

/-- C5 (with C5's divergence made explicit): when the transfer freelist is
exhausted (terminate set on its head), `usb_host_transfer_schedule` returns
the distinct failure code -1 without touching the queue head, the pending
list, or any pool object -- but the allocator's unconditional
`memset(&transfer->td, 0, ...)` has already been executed with
`transfer == NULL`, a write through a null-based pointer. -/
theorem usb_host_transfer_schedule_exhausted_pool (m : host_mem)
    (h : m.tdfree_root = none)
    (fuel pid_code data_toggle data maximum_length : Nat)
    (completion_cb_present : Bool) (user_data : Nat) :
    (usb_host_transfer_schedule fuel m pid_code data_toggle data
        maximum_length completion_cb_present user_data).1 = -1 ∧
    (usb_host_transfer_schedule fuel m pid_code data_toggle data
        maximum_length completion_cb_present user_data).2.1 = m ∧
    (usb_host_transfer_schedule fuel m pid_code data_toggle data
        maximum_length completion_cb_present user_data).2.2 =
      [host_event.memset_td none] := by
  obtain ⟨pr, tr, nl, tn, ta, thl, te, tb, tp, tg, ti, tbp, hcb, ud, ml, qo⟩ := m
  dsimp only at h
  subst h
  exact ⟨rfl, rfl, rfl⟩

/-- Witness for the exhausted-pool theorem at a concrete memory. -/
theorem usb_host_transfer_schedule_exhausted_pool_witness :
    base_host_mem.tdfree_root = none ∧
    ((usb_host_transfer_schedule 4 base_host_mem 1 0 0 512 true 7).1 = -1 ∧
     (usb_host_transfer_schedule 4 base_host_mem 1 0 0 512 true 7).2.1 =
       base_host_mem ∧
     (usb_host_transfer_schedule 4 base_host_mem 1 0 0 512 true 7).2.2 =
       [host_event.memset_td none]) :=
  ⟨rfl, usb_host_transfer_schedule_exhausted_pool base_host_mem rfl 4 1 0 0 512
      true 7⟩

/-- After `usb_disable_all_endpoints`, endpoint control register `i < 6` has
its RXE and TXE bits cleared (and nothing else changed). -/
theorem usb_disable_all_endpoints_endptctrl (d : usb_peripheral) (i : Nat)
    (hi : i < 6) :
    (usb_disable_all_endpoints d).endptctrl i =
      d.endptctrl i &&& compl32 (USB0_ENDPTCTRL_RXE ||| USB0_ENDPTCTRL_TXE) := by
  unfold usb_disable_all_endpoints
  interval_cases i <;> rfl

/-- C8: after the bus-reset handler, the device-address register reads 0 with
the deferred-latch bit clear (the write is the immediate variant), the active
configuration is none, and every endpoint control register 0..5 has both its
RX and TX enable bits clear. -/
theorem usb_bus_reset_default_state (d : usb_peripheral) (i : Nat)
    (hi : i < 6) :
    (usb_bus_reset d).1.deviceaddr = 0 ∧
    (usb_bus_reset d).1.active_configuration = none ∧
    (usb_bus_reset d).1.endptctrl i &&&
      (USB0_ENDPTCTRL_RXE ||| USB0_ENDPTCTRL_TXE) = 0 := by
  refine ⟨rfl, rfl, ?_⟩
  have hctrl : (usb_bus_reset d).1.endptctrl i =
      (usb_disable_all_endpoints d).endptctrl i := rfl
  rw [hctrl, usb_disable_all_endpoints_endptctrl d i hi]
  exact land_compl32_land _ _ (by decide)

/-- Witness for the bus-reset theorem at a dirty concrete device. -/
theorem usb_bus_reset_default_state_witness :
    (0 : Nat) < 6 ∧
    ((usb_bus_reset dirty_device).1.deviceaddr = 0 ∧
     (usb_bus_reset dirty_device).1.active_configuration = none ∧
     (usb_bus_reset dirty_device).1.endptctrl 0 &&&
       (USB0_ENDPTCTRL_RXE ||| USB0_ENDPTCTRL_TXE) = 0) :=
  ⟨by decide, usb_bus_reset_default_state dirty_device 0 (by decide)⟩

/-- C9: `usb_get_status` returns the single read of usbsts masked by usbintr
and writes back exactly that value; consequently a status bit that arrives
between the read and the write-back, or that lies outside the returned mask,
is still set afterwards. -/
theorem usb_get_status_preserves_unacknowledged_bits (d : usb_peripheral)
    (late : Nat) (i : Nat) (hi : i < 32)
    (hset : (d.usbsts ||| late).testBit i = true)
    (hmasked : (d.usbsts &&& d.usbintr).testBit i = false) :
    (usb_get_status d late).1 = d.usbsts &&& d.usbintr ∧
    ((usb_get_status d late).2.usbsts).testBit i = true := by
  refine ⟨rfl, ?_⟩
  have h1 : (4294967295 : Nat).testBit i = true := by
    have h32 : (4294967295 : Nat) = 2 ^ 32 - 1 := by norm_num
    rw [h32, Nat.testBit_two_pow_sub_one]
    simpa using hi
  simp [usb_get_status, compl32, mask32, Nat.testBit_land, Nat.testBit_xor,
    hset, hmasked, h1]

/-- Witness: usbsts = 5 and usbintr = 1 return status 1; bit 2 (set but
masked out) and bit 3 (raised between read and write-back) both survive. -/
theorem usb_get_status_preserves_unacknowledged_bits_witness :
    (3 : Nat) < 32 ∧
    (status_test_device.usbsts ||| 8).testBit 3 = true ∧
    (status_test_device.usbsts &&& status_test_device.usbintr).testBit 3 = false ∧
    ((usb_get_status status_test_device 8).1 =
       status_test_device.usbsts &&& status_test_device.usbintr ∧
     ((usb_get_status status_test_device 8).2.usbsts).testBit 3 = true) :=
  ⟨by decide, by decide, by decide,
   usb_get_status_preserves_unacknowledged_bits status_test_device 8 3
     (by decide) (by decide) (by decide)⟩

/-- C2 counterexample: on a full-speed device whose only configuration has
value 1, GET_DESCRIPTOR(CONFIGURATION, index 0) handled by the usb.c variant
of the engine does NOT equal the response mandated by the claim (resolver
called with descriptor_index + 1): the variant passes the raw index, finds no
descriptor, and stalls. -/
theorem get_descriptor_configuration_raw_index_counterexample :
    usb_standard_request_get_descriptor_ehci one_config_device
        get_config_descriptor_setup ≠
      usb_send_descriptor get_config_descriptor_setup
        (usb_find_configuration_descriptor one_config_device
          (get_config_descriptor_setup.value_l + 1)) := by
  decide

/-- C2 as amended: for every GET_DESCRIPTOR request with descriptor type
CONFIGURATION, the libgreat standard-request engine resolves the
configuration with the wire index plus one, while the usb.c engine variant
resolves it with the wire index unchanged; the two variants disagree. -/
theorem get_descriptor_configuration_index_resolution (d : usb_peripheral)
    (setup : usb_setup)
    (h : setup.value_h = USB_DESCRIPTOR_TYPE_CONFIGURATION) :
    usb_standard_request_get_descriptor d setup =
      usb_send_descriptor setup
        (usb_find_configuration_descriptor d (setup.value_l + 1)) ∧
    usb_standard_request_get_descriptor_ehci d setup =
      usb_send_descriptor setup
        (usb_find_configuration_descriptor d setup.value_l) := by
  constructor
  · simp only [usb_standard_request_get_descriptor, h,
      USB_DESCRIPTOR_TYPE_STRING, USB_DESCRIPTOR_TYPE_CONFIGURATION,
      USB_DESCRIPTOR_TYPE_DEVICE, USB_DESCRIPTOR_TYPE_DEVICE_QUALIFIER,
      USB_DESCRIPTOR_TYPE_OTHER_SPEED_CONFIGURATION]
    norm_num
    cases hfind : usb_find_configuration_descriptor d (setup.value_l + 1) <;>
      simp [hfind, usb_send_descriptor]
  · simp only [usb_standard_request_get_descriptor_ehci, h,
      USB_DESCRIPTOR_TYPE_STRING, USB_DESCRIPTOR_TYPE_CONFIGURATION,
      USB_DESCRIPTOR_TYPE_DEVICE, USB_DESCRIPTOR_TYPE_DEVICE_QUALIFIER,
      USB_DESCRIPTOR_TYPE_OTHER_SPEED_CONFIGURATION]
    norm_num

/-- Witness for the amended C2 theorem at the concrete device and request. -/
theorem get_descriptor_configuration_index_resolution_witness :
    get_config_descriptor_setup.value_h = USB_DESCRIPTOR_TYPE_CONFIGURATION ∧
    (usb_standard_request_get_descriptor one_config_device
        get_config_descriptor_setup =
      usb_send_descriptor get_config_descriptor_setup
        (usb_find_configuration_descriptor one_config_device
          (get_config_descriptor_setup.value_l + 1)) ∧
     usb_standard_request_get_descriptor_ehci one_config_device
        get_config_descriptor_setup =
      usb_send_descriptor get_config_descriptor_setup
        (usb_find_configuration_descriptor one_config_device
          get_config_descriptor_setup.value_l)) :=
  ⟨by decide, get_descriptor_configuration_index_resolution one_config_device
      get_config_descriptor_setup (by decide)⟩

/-- C3: SET_CONFIGURATION(1) then GET_CONFIGURATION transmits 1 (the positive
half of the round trip); but after a further SET_CONFIGURATION(0) -- the
device now de-configured, `active_configuration = none` -- GET_CONFIGURATION
still transmits the byte 1: the handler's static `configuration_index` cell
is rewritten only while a configuration is active, so the stale value is
replied instead of 0. -/
theorem get_configuration_after_deconfiguration_replies_stale :
    after_set_configuration_1.active_configuration = some config_one ∧
    (usb_standard_request_get_configuration after_set_configuration_1
        get_configuration_setup).2.2 =
      [usb_event.schedule_block_in_bytes [1], usb_event.schedule_ack_out] ∧
    after_set_configuration_0.active_configuration = none ∧
    (usb_standard_request_get_configuration after_set_configuration_0
        get_configuration_setup).2.2 =
      [usb_event.schedule_block_in_bytes [1], usb_event.schedule_ack_out] := by
  decide

/-- C10: a nonzero configuration value with no descriptor in the
current-speed pool makes `usb_set_configuration` fail with EFAULT before any
state change: the active configuration is untouched, the
configuration-changed callback does not run, and the SET_CONFIGURATION
handler stalls without scheduling an ACK. -/
theorem set_configuration_unknown_value_is_rejected (d : usb_peripheral)
    (setup : usb_setup) (v : Nat) (hv : v ≠ 0) (hsetup : setup.value_l = v)
    (hmiss : ∀ c ∈ ((usb_current_configuration_pool d).getD []).take
        d.configuration_count, c.value ≠ v) :
    (usb_set_configuration d v).1 = EFAULT ∧
    (usb_set_configuration d v).1 ≠ 0 ∧
    (usb_set_configuration d v).2.1 = d ∧
    (usb_set_configuration d v).2.2 = [] ∧
    usb_standard_request_set_configuration d setup =
      (usb_request_status.stall, d, []) := by
  have hfind : usb_find_configuration_descriptor d v = none := by
    unfold usb_find_configuration_descriptor find_configuration_descriptor_core
    simp only [if_neg hv, Bool.false_eq_true, if_false]
    cases hpool : usb_current_configuration_pool d with
    | none => simp
    | some cfgs =>
        rw [hpool] at hmiss
        simp only [Option.getD_some] at hmiss
        simp only [List.find?_eq_none, decide_eq_true_eq]
        exact fun c hc => hmiss c hc
  have hcore : usb_set_configuration d v = (EFAULT, d, []) := by
    unfold usb_set_configuration
    rw [if_pos ⟨hv, hfind⟩]
  have hef : EFAULT ≠ 0 := by decide
  refine ⟨by rw [hcore], by rw [hcore]; exact hef, by rw [hcore],
          by rw [hcore], ?_⟩
  simp [usb_standard_request_set_configuration, hsetup, hcore, EFAULT]

/-- Witness: SET_CONFIGURATION(2) on the device whose only configuration has
value 1. -/
theorem set_configuration_unknown_value_is_rejected_witness :
    (2 : Nat) ≠ 0 ∧ set_configuration_2_setup.value_l = 2 ∧
    (∀ c ∈ ((usb_current_configuration_pool one_config_device).getD []).take
        one_config_device.configuration_count, c.value ≠ 2) ∧
    ((usb_set_configuration one_config_device 2).1 = EFAULT ∧
     (usb_set_configuration one_config_device 2).1 ≠ 0 ∧
     (usb_set_configuration one_config_device 2).2.1 = one_config_device ∧
     (usb_set_configuration one_config_device 2).2.2 = [] ∧
     usb_standard_request_set_configuration one_config_device
        set_configuration_2_setup =
       (usb_request_status.stall, one_config_device, [])) :=
  ⟨by decide, by decide, by decide,
   set_configuration_unknown_value_is_rejected one_config_device
     set_configuration_2_setup 2 (by decide) (by decide) (by decide)⟩

/-- The initialized chain: starting from element `k`, the links of
`pool_chain_links n (n - 1)` run through `k, k+1, ..., n-1` and terminate. -/
theorem pool_chain_links_holds_aux (n : Nat) :
    ∀ d k, k + d = n → 1 ≤ d →
      freelist_holds { head := some k, next := pool_chain_links n (n - 1) }
        (List.range' k d) := by
  intro d
  induction d with
  | zero => intro k _ h1; omega
  | succ d ih =>
      intro k hk _
      rw [List.range'_succ]
      refine ⟨rfl, ?_⟩
      dsimp only
      rcases Nat.eq_zero_or_pos d with hd | hd
      · subst hd
        have hk1 : k = n - 1 := by omega
        simp [freelist_holds, pool_chain_links, hk1]
      · have hne : k ≠ n - 1 := by omega
        have hlt : k < n - 1 := by omega
        have hstep : pool_chain_links n (n - 1) k = some (k + 1) := by
          simp [pool_chain_links, hne, hlt]
        rw [hstep]
        exact ih (k + 1) (by omega) hd

/-- `freelist_holds` only reads `next` at members of the list, so an update
at an element outside the list preserves it. -/
theorem freelist_holds_update_of_notmem (next : Nat → Option Nat) (a : Nat)
    (v : Option Nat) :
    ∀ (L : List Nat) (h : Option Nat), a ∉ L →
      freelist_holds { head := h, next := next } L →
      freelist_holds { head := h, next := Function.update next a v } L := by
  intro L
  induction L with
  | nil => intro h _ hf; exact hf
  | cons b rest ih =>
      intro h hmem hf
      obtain ⟨hhead, hrest⟩ := hf
      refine ⟨hhead, ?_⟩
      have hba : b ≠ a := by
        intro e
        exact hmem (e ▸ List.mem_cons_self b rest)
      show freelist_holds
        { head := Function.update next a v b, next := Function.update next a v }
        rest
      rw [Function.update_noteq hba]
      exact ih (next b) (fun hr => hmem (List.mem_cons_of_mem b hr)) hrest

/-- Allocating from a freelist that holds the distinct elements of `L` yields
exactly `L`, in order, and exhausts the list (head terminates). -/
theorem usb_host_allocate_n_of_holds :
    ∀ (L : List Nat) (fl : freelist_state),
      freelist_holds fl L → L.Nodup →
      ∃ fl', usb_host_allocate_n L.length fl = some (L, fl') ∧
        fl'.head = none := by
  intro L
  induction L with
  | nil => intro fl hf _; exact ⟨fl, rfl, hf⟩
  | cons a rest ih =>
      intro fl hf hnd
      obtain ⟨hhead, hrest⟩ := hf
      have hanotin : a ∉ rest := (List.nodup_cons.mp hnd).1
      have hrest' : freelist_holds
          { head := fl.next a, next := Function.update fl.next a none } rest :=
        freelist_holds_update_of_notmem fl.next a none rest (fl.next a)
          hanotin hrest
      obtain ⟨fl', heq, hnone⟩ :=
        ih { head := fl.next a, next := Function.update fl.next a none }
          hrest' (List.nodup_cons.mp hnd).2
      refine ⟨fl', ?_, hnone⟩
      have halloc : usb_host_allocate_from_freelist fl =
          (some a, { head := fl.next a, next := Function.update fl.next a none }) := by
        unfold usb_host_allocate_from_freelist
        rw [hhead]
      show usb_host_allocate_n (rest.length + 1) fl = _
      unfold usb_host_allocate_n
      simp only [halloc, heq]

/-- Freeing a list of fresh, distinct elements onto a freelist rebuilds it:
the result holds the freed elements (most recent first) in front of what was
already there. -/
theorem freelist_holds_after_frees :
    ∀ (order : List Nat) (fl : freelist_state) (L : List Nat),
      freelist_holds fl L → (∀ x ∈ order, x ∉ L) → order.Nodup →
      freelist_holds (order.foldl usb_host_add_to_list fl)
        (order.reverse ++ L) := by
  intro order
  induction order with
  | nil => intro fl L hf _ _; simpa using hf
  | cons x rest ih =>
      intro fl L hf hnin hnd
      have hxL : x ∉ L := hnin x (List.mem_cons_self x rest)
      have hxrest : x ∉ rest := (List.nodup_cons.mp hnd).1
      have hfl' : freelist_holds (usb_host_add_to_list fl x) (x :: L) := by
        refine ⟨rfl, ?_⟩
        show freelist_holds
          { head := Function.update fl.next x fl.head x,
            next := Function.update fl.next x fl.head } L
        rw [Function.update_same]
        exact freelist_holds_update_of_notmem fl.next x fl.head L fl.head hxL hf
      have hnin' : ∀ y ∈ rest, y ∉ x :: L := by
        intro y hy hmem
        rcases List.mem_cons.mp hmem with he | hL
        · exact hxrest (he ▸ hy)
        · exact hnin y (List.mem_cons_of_mem x hy) hL
      have hmain := ih (usb_host_add_to_list fl x) (x :: L) hfl' hnin'
        (List.nodup_cons.mp hnd).2
      simpa [List.reverse_cons, List.append_assoc] using hmain

/-- C4: with the two pool-size constants equal (value `n`), initialization
leaves each freelist holding every element of its pool exactly once with the
final link terminated; allocating `n` transfers (or `n` queue heads) succeeds
and yields each element exactly once; and after freeing all `n` back in ANY
order, `n` further allocations succeed again. -/
theorem usb_host_storage_pools_alloc_free_cycle (n : Nat) (hn : 1 ≤ n)
    (order : List Nat) (hperm : order.Perm (List.range n)) :
    freelist_holds (usb_host_initialize_storage_pools n n).1 (List.range n) ∧
    freelist_holds (usb_host_initialize_storage_pools n n).2 (List.range n) ∧
    ∃ fl', usb_host_allocate_n n (usb_host_initialize_storage_pools n n).1 =
        some (List.range n, fl') ∧
      usb_host_allocate_n n (usb_host_initialize_storage_pools n n).2 =
        some (List.range n, fl') ∧
      (usb_host_allocate_n n (order.foldl usb_host_add_to_list fl')).isSome := by
  have hrange : List.range n = List.range' 0 n := List.range_eq_range' n
  have hchain : freelist_holds
      { head := some 0, next := pool_chain_links n (n - 1) } (List.range n) := by
    rw [hrange]
    exact pool_chain_links_holds_aux n n 0 (by omega) hn
  have hnodup : (List.range n).Nodup := List.nodup_range n
  have hlen : (List.range n).length = n := List.length_range n
  obtain ⟨fl', heq, hnone⟩ :=
    usb_host_allocate_n_of_holds (List.range n)
      { head := some 0, next := pool_chain_links n (n - 1) } hchain hnodup
  rw [hlen] at heq
  have hordernd : order.Nodup := hperm.nodup_iff.mpr hnodup
  have hfreed : freelist_holds (order.foldl usb_host_add_to_list fl')
      order.reverse := by
    have hempty : freelist_holds fl' [] := hnone
    have := freelist_holds_after_frees order fl' [] hempty
      (by intro x _ hx; exact (List.not_mem_nil x) hx) hordernd
    simpa using this
  obtain ⟨fl'', heq2, _⟩ :=
    usb_host_allocate_n_of_holds order.reverse
      (order.foldl usb_host_add_to_list fl') hfreed
      (List.nodup_reverse.mpr hordernd)
  have hlen2 : order.reverse.length = n := by
    rw [List.length_reverse, hperm.length_eq, hlen]
  rw [hlen2] at heq2
  exact ⟨hchain, hchain, fl', heq, heq, by rw [heq2]; rfl⟩

/-- Witness for the pool cycle at n = 3, freeing in the order 1, 0, 2. -/
theorem usb_host_storage_pools_alloc_free_cycle_witness :
    (1 : Nat) ≤ 3 ∧ ([1, 0, 2] : List Nat).Perm (List.range 3) ∧
    (freelist_holds (usb_host_initialize_storage_pools 3 3).1 (List.range 3) ∧
     freelist_holds (usb_host_initialize_storage_pools 3 3).2 (List.range 3) ∧
     ∃ fl', usb_host_allocate_n 3 (usb_host_initialize_storage_pools 3 3).1 =
         some (List.range 3, fl') ∧
       usb_host_allocate_n 3 (usb_host_initialize_storage_pools 3 3).2 =
         some (List.range 3, fl') ∧
       (usb_host_allocate_n 3
         (([1, 0, 2] : List Nat).foldl usb_host_add_to_list fl')).isSome) :=
  ⟨by decide, by decide,
   usb_host_storage_pools_alloc_free_cycle 3 (by decide) [1, 0, 2] (by decide)⟩
